import Mathlib

/-
Verification of the persistence layer of the strokeapp repository.

The development shallowly embeds the storage code:
  * `src/client/src/utils/database.js`      — Dexie (IndexedDB) entity store
  * `src/client/src/utils/initialDataLoader.js` — seed / reset logic
  * the IndexedDB image-blob utilities (`initDB`, `storeUserImage`,
    `getUserImage`, `generateImageId`, `isUserUploadedImage`,
    `getImageSource`)
  * the upload pipeline in `FileSystemImageUpload`
    (`validateImageFile`, `compressImage`, `processAndStoreImage`)

Modelling conventions:
  * JavaScript `undefined`-able fields become `Option`; fields the code
    always stamps itself (`createdAt`, `updatedAt` at add time) are plain.
  * `new Date().toISOString()` and `Date.now()` are explicit `now` /
    `timestamp` parameters threaded through the operations.
  * A Dexie table is a list of rows in stored (primary-key) order plus the
    IndexedDB auto-increment key generator.  Per the IndexedDB
    specification the key generator is NOT reset by `clear()`; only
    deleting the object store resets it.
  * Async failure (`throw`) is `Except JsError`.  The spec's error
    taxonomy is the inductive `JsError`; constructors the code never
    produces still exist so that claims about them are statable.
  * Dexie `orderBy(key)` iterates the secondary index; IndexedDB creates
    no index entry for a record whose key path evaluates to `undefined`,
    so such records are skipped by `orderBy`.
  * Canvas compression and `FileReader` encoding are opaque effectful
    functions, passed as parameters to the pipeline.
-/

namespace StrokeApp

-- Decidable equality of thrown-or-returned results, for concrete evaluation.
deriving instance DecidableEq for Except

/-- Error taxonomy used by the specification.  The code itself throws
plain `Error`s and `TypeError`s; constructors carry the message text. -/
inductive JsError where
  | typeError (msg : String)
  | validationError (msgs : List String)
  | notFoundError (msg : String)
  | bulkError (msg : String)
deriving DecidableEq

/-- JavaScript `x || d` for a possibly-undefined number (`0` is falsy). -/
def jsOrNat (v : Option Nat) (d : Nat) : Nat :=
  match v with
  | none => d
  | some n => if n = 0 then d else n

/-- JavaScript `!x` for a possibly-undefined boolean (`!undefined = true`). -/
def jsNotBool (v : Option Bool) : Bool :=
  match v with
  | none => true
  | some b => !b

/-- JavaScript `String.prototype.trim`, restricted to the space character
(the inputs the claims exercise contain no other whitespace). -/
def trimChars (l : List Char) : List Char :=
  ((l.dropWhile (· == ' ')).reverse.dropWhile (· == ' ')).reverse

/-- Truthiness of `data.field?.trim()` : defined and nonempty after trim. -/
def jsTruthyTrim (v : Option String) : Bool :=
  match v with
  | none => false
  | some s => !(trimChars s.data).isEmpty

/-- A Dexie table: rows in stored order plus the auto-increment counter.
IndexedDB key generators start at 1. -/
structure Table (α : Type) where
  rows : List α
  nextId : Nat
deriving DecidableEq

/-- Record types expose their numeric primary key. -/
class HasId (α : Type) where
  idOf : α → Nat

def Table.empty {α : Type} : Table α := ⟨[], 1⟩

/-- Models `table.get(id)`: the row with the given primary key, or `undefined`. -/
def Table.get {α : Type} [HasId α] (t : Table α) (i : Nat) : Option α :=
  t.rows.find? (fun a => HasId.idOf a == i)

/-- Models `table.add(record)` for an auto-increment table: the generator value
becomes the id, the row is appended, the counter advances. -/
def Table.add {α : Type} (t : Table α) (mk : Nat → α) : α × Table α :=
  let r := mk t.nextId
  (r, ⟨t.rows ++ [r], t.nextId + 1⟩)

/-- Models `table.update(id, changes)`: patch the row with that key, if any;
a missing key is a silent no-op (Dexie resolves with 0). -/
def Table.updateById {α : Type} [HasId α] (t : Table α) (i : Nat) (g : α → α) : Table α :=
  ⟨t.rows.map (fun a => if HasId.idOf a == i then g a else a), t.nextId⟩

/-- Models `table.clear()`: removes the rows; the key generator is untouched. -/
def Table.clear {α : Type} (t : Table α) : Table α := ⟨[], t.nextId⟩

/-- Models `table.bulkAdd(list)`: inserts records as-is (keys preserved); a
duplicate primary key is a ConstraintError, which inside the import
transaction aborts the whole operation.  Adding an explicit numeric key
bumps the key generator past it. -/
def Table.bulkAdd {α : Type} [HasId α] (t : Table α) (l : List α) : Except JsError (Table α) :=
  if ((t.rows ++ l).map HasId.idOf).Nodup then
    .ok ⟨t.rows ++ l, max t.nextId ((l.map HasId.idOf).foldr max 0 + 1)⟩
  else
    .error (.bulkError "ConstraintError")

/-- Nested symptom descriptor stored inside an emergency record
(shape produced by `loadInitialEmergencyData`). -/
structure Symptom where
  stype : String
  description : String
  symptomImage : String
  icon : String
  usageCount : Nat
  createdAt : String
deriving DecidableEq

structure Emergency where
  id : Nat
  name : Option String
  description : Option String
  bodyPartImage : Option String
  icon : Option String
  symptoms : List Symptom
  createdAt : String
deriving DecidableEq

instance : HasId Emergency := ⟨Emergency.id⟩

/-- Caller-supplied payload of `addEmergency` (spread before stamping). -/
structure EmergencyData where
  name : Option String := none
  description : Option String := none
  bodyPartImage : Option String := none
  icon : Option String := none
  symptoms : List Symptom := []
deriving DecidableEq

/-- Caller-supplied patch of `updateEmergency` (the claim-relevant fields);
`some v` sets the field, `none` leaves it alone.  Dexie applies whatever
keys the caller passes — including `createdAt`. -/
structure EmergencyPatch where
  name : Option String := none
  description : Option String := none
  createdAt : Option String := none
deriving DecidableEq

structure Food where
  id : Nat
  name : Option String
  category : Option String
  isFavorite : Option Bool
  usageCount : Option Nat
  createdAt : String
deriving DecidableEq

instance : HasId Food := ⟨Food.id⟩

structure FoodData where
  name : Option String := none
  category : Option String := none
  isFavorite : Option Bool := none
  usageCount : Option Nat := none
deriving DecidableEq

structure Contact where
  id : Nat
  name : Option String
  relationship : Option String
  gender : Option String
  phoneNumber : Option String
  usageCount : Option Nat
  createdAt : String
  updatedAt : String
deriving DecidableEq

instance : HasId Contact := ⟨Contact.id⟩

structure ContactData where
  name : Option String := none
  relationship : Option String := none
  gender : Option String := none
  phoneNumber : Option String := none
  usageCount : Option Nat := none
deriving DecidableEq

structure Phrase where
  id : Nat
  text : Option String
  category : Option String
  usageCount : Option Nat
  createdAt : String
  updatedAt : String
deriving DecidableEq

instance : HasId Phrase := ⟨Phrase.id⟩

structure PhraseData where
  text : Option String := none
  category : Option String := none
  usageCount : Option Nat := none
deriving DecidableEq

structure Order where
  id : Nat
  orderNumber : Option String
  status : Option String
  totalAmount : Option Nat
  isUrgent : Option Bool
  orderDate : Option String
  createdAt : String
  updatedAt : String
deriving DecidableEq

instance : HasId Order := ⟨Order.id⟩

structure OrderData where
  orderNumber : Option String := none
  status : Option String := none
  totalAmount : Option Nat := none
  isUrgent : Option Bool := none
  orderDate : Option String := none
deriving DecidableEq

structure Activity where
  id : Nat
  name : Option String
  category : Option String
  isRecurring : Option Bool
  frequency : Option String
  isActive : Option Bool
  usageCount : Option Nat
  createdAt : String
deriving DecidableEq

instance : HasId Activity := ⟨Activity.id⟩

structure ActivityData where
  name : Option String := none
  category : Option String := none
  isRecurring : Option Bool := none
  frequency : Option String := none
  isActive : Option Bool := none
  usageCount : Option Nat := none
deriving DecidableEq

/-- The six Dexie collections of `StrokeAppDB`. -/
structure DB where
  emergencies : Table Emergency
  foods : Table Food
  contacts : Table Contact
  phrases : Table Phrase
  orders : Table Order
  activities : Table Activity
deriving DecidableEq

def DB.empty : DB :=
  ⟨Table.empty, Table.empty, Table.empty, Table.empty, Table.empty, Table.empty⟩

/-- The new state produced by an operation, or the old one if it threw
(a thrown Dexie operation leaves the store unchanged). -/
def dbAfter {α : Type} (r : Except JsError (α × DB)) (db : DB) : DB :=
  match r with
  | .ok (_, db') => db'
  | .error _ => db

/-! Enumerated category sets (`ENUMS` in database.js). -/

def CONTACT_RELATIONSHIPS : List String :=
  ["family", "friend", "recently_mentioned", "known_person"]

def CONTACT_GENDER : List String := ["male", "female"]

def FOOD_CATEGORIES : List String :=
  ["breakfast", "lunch", "dinner", "snack", "drink", "dessert"]

def PHRASE_CATEGORIES : List String :=
  ["common", "greeting", "emergency", "food", "health", "transport",
   "shopping", "specific", "nickname", "other"]

def ORDER_STATUS : List String :=
  ["pending", "confirmed", "preparing", "ready", "delivered", "cancelled"]

def ACTIVITY_CATEGORIES : List String :=
  ["health", "exercise", "entertainment", "personal_care", "other"]

def ACTIVITY_FREQUENCY : List String := ["daily", "weekly", "monthly", "custom"]

/-- Models `validateEnum(value, enumArray)` — `includes` of an undefined value is
false. -/
def validateEnum (value : Option String) (enumArray : List String) : Bool :=
  match value with
  | none => false
  | some v => enumArray.contains v

/-- Models `validateContactData` from database.js (list of error strings). -/
def validateContactData (d : ContactData) : List String :=
  (if !jsTruthyTrim d.name then ["Name is required"] else []) ++
  (if !validateEnum d.relationship CONTACT_RELATIONSHIPS then ["Invalid relationship"] else []) ++
  (if !validateEnum d.gender CONTACT_GENDER then ["Invalid gender"] else [])

/-- Models `validateFoodData` from database.js. -/
def validateFoodData (d : FoodData) : List String :=
  (if !jsTruthyTrim d.name then ["Name is required"] else []) ++
  (if !validateEnum d.category FOOD_CATEGORIES then ["Invalid category"] else [])

/-- Models `validatePhraseData` from database.js. -/
def validatePhraseData (d : PhraseData) : List String :=
  (if !jsTruthyTrim d.text then ["Text is required"] else []) ++
  (if !validateEnum d.category PHRASE_CATEGORIES then ["Invalid category"] else [])

/-- Models `validateOrderData` from database.js. -/
def validateOrderData (d : OrderData) : List String :=
  (if !jsTruthyTrim d.orderNumber then ["Order number is required"] else []) ++
  (if !validateEnum d.status ORDER_STATUS then ["Invalid status"] else [])

/-- Models `validateActivityData` from database.js. -/
def validateActivityData (d : ActivityData) : List String :=
  (if !jsTruthyTrim d.name then ["Name is required"] else []) ++
  (if !validateEnum d.category ACTIVITY_CATEGORIES then ["Invalid category"] else []) ++
  (if d.isRecurring == some true && !validateEnum d.frequency ACTIVITY_FREQUENCY
   then ["Invalid frequency"] else [])

/-! Sorting used by `getAll*`: `orderBy(key).reverse().toArray()`.
Records whose key path is `undefined` have no index entry and are skipped.
The implementation sorts descending by the key; the claims constrain
sortedness and membership, not the order among equal keys. -/

/-- Descending order by a projection. -/
def keyDesc {α β : Type} [LinearOrder β] (f : α → β) : α → α → Prop :=
  fun a b => f b ≤ f a

instance {α β : Type} [LinearOrder β] {f : α → β} : DecidableRel (keyDesc f) :=
  fun a b => inferInstanceAs (Decidable (f b ≤ f a))

instance {α β : Type} [LinearOrder β] {f : α → β} : IsTotal α (keyDesc f) :=
  ⟨fun a b => le_total (f b) (f a)⟩

instance {α β : Type} [LinearOrder β] {f : α → β} : IsTrans α (keyDesc f) :=
  ⟨fun _ _ _ h1 h2 => le_trans h2 h1⟩

/-! Emergency operations (`emergencyOperations`). -/

/-- Models `addEmergency`: stamp `createdAt`, persist, return the full record. -/
def addEmergency (now : String) (d : EmergencyData) (db : DB) :
    Except JsError (Emergency × DB) :=
  let (r, t) := db.emergencies.add
    (fun i => ⟨i, d.name, d.description, d.bodyPartImage, d.icon, d.symptoms, now⟩)
  .ok (r, { db with emergencies := t })

/-- Models `getAllEmergencies`: `orderBy(createdAt).reverse()`. -/
def getAllEmergencies (db : DB) : List Emergency :=
  db.emergencies.rows.insertionSort (keyDesc Emergency.createdAt)

/-- Models `getEmergencyById`: Dexie `get` — resolves with the record or
`undefined`; it does not throw on a missing id. -/
def getEmergencyById (i : Nat) (db : DB) : Except JsError (Option Emergency) :=
  .ok (db.emergencies.get i)

/-- Models `updateEmergency(id, emergencyData)`: apply the caller's patch verbatim
(whatever keys it carries), then return `get(id)`. -/
def updateEmergency (i : Nat) (p : EmergencyPatch) (db : DB) :
    Except JsError (Option Emergency × DB) :=
  let t := db.emergencies.updateById i (fun e =>
    { e with
      name := p.name.or e.name
      description := p.description.or e.description
      createdAt := p.createdAt.getD e.createdAt })
  let db' := { db with emergencies := t }
  .ok (db'.emergencies.get i, db')

/-! Food operations (`foodOperations`).  Note: none of the `add*`
operations invoke the `validate*` helpers. -/

/-- Models `addFood`: stamp `createdAt`, persist, return the full record —
no validation is performed. -/
def addFood (now : String) (d : FoodData) (db : DB) :
    Except JsError (Food × DB) :=
  let (r, t) := db.foods.add
    (fun i => ⟨i, d.name, d.category, d.isFavorite, d.usageCount, now⟩)
  .ok (r, { db with foods := t })

/-- Models `getAllFoods`: `orderBy(createdAt).reverse()`. -/
def getAllFoods (db : DB) : List Food :=
  db.foods.rows.insertionSort (keyDesc Food.createdAt)

/-- Models `updateFoodUsageCount`: read the record, write `(usageCount || 0) + 1`.
On a missing id the read yields `undefined` and the property access
throws a TypeError. -/
def updateFoodUsageCount (i : Nat) (db : DB) :
    Except JsError (Option Food × DB) :=
  match db.foods.get i with
  | none => .error (.typeError "Cannot read properties of undefined (reading usageCount)")
  | some food =>
    let t := db.foods.updateById i
      (fun f => { f with usageCount := some (jsOrNat food.usageCount 0 + 1) })
    let db' := { db with foods := t }
    .ok (db'.foods.get i, db')

/-- Models `toggleFavorite`: read the record, write `!isFavorite`. -/
def toggleFavorite (i : Nat) (db : DB) :
    Except JsError (Option Food × DB) :=
  match db.foods.get i with
  | none => .error (.typeError "Cannot read properties of undefined (reading isFavorite)")
  | some food =>
    let t := db.foods.updateById i
      (fun f => { f with isFavorite := some (jsNotBool food.isFavorite) })
    let db' := { db with foods := t }
    .ok (db'.foods.get i, db')

/-! Contact operations (`contactOperations`). -/

/-- Models `addContact`: stamp `createdAt` and `updatedAt`, persist. -/
def addContact (now : String) (d : ContactData) (db : DB) :
    Except JsError (Contact × DB) :=
  let (r, t) := db.contacts.add
    (fun i => ⟨i, d.name, d.relationship, d.gender, d.phoneNumber, d.usageCount, now, now⟩)
  .ok (r, { db with contacts := t })

/-- Models `getAllContacts`: `orderBy(usageCount).reverse()`; contacts stored
without a `usageCount` have no index entry and are skipped. -/
def getAllContacts (db : DB) : List Contact :=
  (db.contacts.rows.filter (fun c => c.usageCount.isSome)).insertionSort
    (keyDesc (fun c => c.usageCount.getD 0))

/-- Models `updateContactUsageCount`: `(usageCount || 0) + 1` and refresh
`updatedAt`. -/
def updateContactUsageCount (now : String) (i : Nat) (db : DB) :
    Except JsError (Option Contact × DB) :=
  match db.contacts.get i with
  | none => .error (.typeError "Cannot read properties of undefined (reading usageCount)")
  | some c =>
    let t := db.contacts.updateById i
      (fun x => { x with usageCount := some (jsOrNat c.usageCount 0 + 1), updatedAt := now })
    let db' := { db with contacts := t }
    .ok (db'.contacts.get i, db')

/-! Phrase operations (`phraseOperations`). -/

/-- Models `addPhrase`: stamp `createdAt` and `updatedAt`, persist. -/
def addPhrase (now : String) (d : PhraseData) (db : DB) :
    Except JsError (Phrase × DB) :=
  let (r, t) := db.phrases.add
    (fun i => ⟨i, d.text, d.category, d.usageCount, now, now⟩)
  .ok (r, { db with phrases := t })

/-- Models `getAllPhrases`: `orderBy(usageCount).reverse()`. -/
def getAllPhrases (db : DB) : List Phrase :=
  (db.phrases.rows.filter (fun p => p.usageCount.isSome)).insertionSort
    (keyDesc (fun p => p.usageCount.getD 0))

/-- Models `updatePhraseUsageCount`: `(usageCount || 0) + 1` and refresh
`updatedAt`. -/
def updatePhraseUsageCount (now : String) (i : Nat) (db : DB) :
    Except JsError (Option Phrase × DB) :=
  match db.phrases.get i with
  | none => .error (.typeError "Cannot read properties of undefined (reading usageCount)")
  | some p =>
    let t := db.phrases.updateById i
      (fun x => { x with usageCount := some (jsOrNat p.usageCount 0 + 1), updatedAt := now })
    let db' := { db with phrases := t }
    .ok (db'.phrases.get i, db')

/-! Order operations (`orderOperations`). -/

/-- Models `addOrder`: stamp `createdAt` and `updatedAt`, persist. -/
def addOrder (now : String) (d : OrderData) (db : DB) :
    Except JsError (Order × DB) :=
  let (r, t) := db.orders.add
    (fun i => ⟨i, d.orderNumber, d.status, d.totalAmount, d.isUrgent, d.orderDate, now, now⟩)
  .ok (r, { db with orders := t })

/-- Models `getAllOrders`: `orderBy(orderDate).reverse()`. -/
def getAllOrders (db : DB) : List Order :=
  (db.orders.rows.filter (fun o => o.orderDate.isSome)).insertionSort
    (keyDesc (fun o => o.orderDate.getD ""))

/-- Models `updateOrderStatus`: `update(id, { status, updatedAt })` — no prior
read, so a missing id is a silent no-op — then return `get(id)`.
The status value is not validated against `ORDER_STATUS`. -/
def updateOrderStatus (now : String) (i : Nat) (status : String) (db : DB) :
    Except JsError (Option Order × DB) :=
  let t := db.orders.updateById i
    (fun o => { o with status := some status, updatedAt := now })
  let db' := { db with orders := t }
  .ok (db'.orders.get i, db')

/-! Activity operations (`activityOperations`). -/

/-- Models `addActivity`: stamp `createdAt`, persist. -/
def addActivity (now : String) (d : ActivityData) (db : DB) :
    Except JsError (Activity × DB) :=
  let (r, t) := db.activities.add
    (fun i => ⟨i, d.name, d.category, d.isRecurring, d.frequency, d.isActive, d.usageCount, now⟩)
  .ok (r, { db with activities := t })

/-- Models `getAllActivities`: `orderBy(createdAt).reverse()`. -/
def getAllActivities (db : DB) : List Activity :=
  db.activities.rows.insertionSort (keyDesc Activity.createdAt)

/-- Models `updateActivityUsageCount`: `(usageCount || 0) + 1`. -/
def updateActivityUsageCount (i : Nat) (db : DB) :
    Except JsError (Option Activity × DB) :=
  match db.activities.get i with
  | none => .error (.typeError "Cannot read properties of undefined (reading usageCount)")
  | some a =>
    let t := db.activities.updateById i
      (fun x => { x with usageCount := some (jsOrNat a.usageCount 0 + 1) })
    let db' := { db with activities := t }
    .ok (db'.activities.get i, db')

/-- Models `toggleActivityActive`: read the record, write `!isActive`. -/
def toggleActivityActive (i : Nat) (db : DB) :
    Except JsError (Option Activity × DB) :=
  match db.activities.get i with
  | none => .error (.typeError "Cannot read properties of undefined (reading isActive)")
  | some a =>
    let t := db.activities.updateById i
      (fun x => { x with isActive := some (jsNotBool a.isActive) })
    let db' := { db with activities := t }
    .ok (db'.activities.get i, db')

/-! Bulk operations (`dbOperations.exportData` / `importData` /
`clearAllData`). -/

/-- The aggregate snapshot produced by `exportData`. -/
structure Snapshot where
  emergencies : List Emergency
  foods : List Food
  contacts : List Contact
  phrases : List Phrase
  orders : List Order
  activities : List Activity
deriving DecidableEq

/-- Models `exportData`: read every table fully. -/
def exportData (db : DB) : Snapshot :=
  ⟨db.emergencies.rows, db.foods.rows, db.contacts.rows,
   db.phrases.rows, db.orders.rows, db.activities.rows⟩

/-- Models `importData`: bulk-add each collection as-is inside one `rw`
transaction over all six tables; any failure aborts and rolls back the
whole import, so the error case returns no state. -/
def importData (s : Snapshot) (db : DB) : Except JsError DB :=
  match db.emergencies.bulkAdd s.emergencies with
  | .error err => .error err
  | .ok e =>
    match db.foods.bulkAdd s.foods with
    | .error err => .error err
    | .ok f =>
      match db.contacts.bulkAdd s.contacts with
      | .error err => .error err
      | .ok c =>
        match db.phrases.bulkAdd s.phrases with
        | .error err => .error err
        | .ok p =>
          match db.orders.bulkAdd s.orders with
          | .error err => .error err
          | .ok o =>
            match db.activities.bulkAdd s.activities with
            | .error err => .error err
            | .ok a => .ok ⟨e, f, c, p, o, a⟩

/-- Models `clearAllData`: clear all six tables (key generators untouched). -/
def clearAllData (db : DB) : DB :=
  ⟨db.emergencies.clear, db.foods.clear, db.contacts.clear,
   db.phrases.clear, db.orders.clear, db.activities.clear⟩

/-! Initial-data loader (`initialDataLoader.js`).  The bundled
`emergency.json` document is the `seed` parameter. -/

structure SymptomSeed where
  stype : String
  description : String
  symptomImage : String
  icon : String
deriving DecidableEq

structure BodyPartSeed where
  name : String
  description : String
  bodyPartImage : String
  icon : String
  symptoms : List SymptomSeed
deriving DecidableEq

/-- The record assembled for each body part before `addEmergency`
(symptoms get `usageCount: 0` and a fresh `createdAt`). -/
def seedEmergencyData (now : String) (bp : BodyPartSeed) : EmergencyData :=
  { name := some bp.name
    description := some bp.description
    bodyPartImage := some bp.bodyPartImage
    icon := some bp.icon
    symptoms := bp.symptoms.map (fun s => ⟨s.stype, s.description, s.symptomImage, s.icon, 0, now⟩) }

/-- Models `loadInitialEmergencyData`: skip when emergencies already exist,
otherwise add one record per body part of the seed document. -/
def loadInitialEmergencyData (seed : List BodyPartSeed) (now : String) (db : DB) : DB :=
  if db.emergencies.rows.isEmpty then
    seed.foldl (fun acc bp => dbAfter (addEmergency now (seedEmergencyData now bp) acc) acc) db
  else db

/-- Models `loadAllInitialData` currently only loads the emergency seed. -/
def loadAllInitialData (seed : List BodyPartSeed) (now : String) (db : DB) : DB :=
  loadInitialEmergencyData seed now db

/-- Models `resetAndReloadData`: clear every collection, then reseed. -/
def resetAndReloadData (seed : List BodyPartSeed) (now : String) (db : DB) : DB :=
  loadAllInitialData seed now (clearAllData db)

/-! Blob store for user-uploaded images (`userImages` object store of
`EmergencyAppDB`, string primary key `id`). -/

/-- A stored image unit (`imageRecord` built by `storeUserImage`). -/
structure ImageRecord where
  id : String
  rtype : String
  base64Data : String
  originalName : String
  uploadDate : String
  size : Nat
  bodyPartId : Option String
  symptomId : Option String
  contactId : Option String
  foodId : Option String
  phraseId : Option String
deriving DecidableEq

/-- The `userImages` store: records in stored order. -/
abbrev BlobStore := List ImageRecord

/-- Models `storeUserImage` ends in `store.put(record)`: an upsert by primary
key. -/
def storeUserImage (r : ImageRecord) (store : BlobStore) : BlobStore :=
  if store.any (fun x => x.id == r.id) then
    store.map (fun x => if x.id == r.id then r else x)
  else store ++ [r]

/-- Models `getUserImage`: resolves with the record, or `null` when absent; an
IndexedDB request failure (modelled by `fail`) rejects. -/
def getUserImage (fail : Option JsError) (store : BlobStore) (imageId : String) :
    Except JsError (Option ImageRecord) :=
  match fail with
  | some e => .error e
  | none => .ok (store.find? (fun r => r.id == imageId))

/-- Models `generateImageId(type, identifier)`; `Date.now()` and the
`Math.random` suffix are explicit parameters. -/
def generateImageId (ty identifier timestamp random : String) : String :=
  "user_upload_" ++ ty ++ "_" ++ identifier ++ "_" ++ timestamp ++ "_" ++ random

/-- Models `isUserUploadedImage`: truthy and starts with the upload marker. -/
def isUserUploadedImage (imagePath : String) : Bool :=
  (imagePath != "") && ("user_upload_".data.isPrefixOf imagePath.data)

/-- Models `getImageSource`: resolve a reference to a displayable payload.
A user-upload id is looked up in the blob store (`base64Data`, or `null`
when absent; a storage failure is caught and becomes `null`); any other
string is returned unchanged.  The function is total: it never throws. -/
def getImageSource (fail : Option JsError) (store : BlobStore) (imagePath : String) :
    Option String :=
  if isUserUploadedImage imagePath then
    match getUserImage fail store imagePath with
    | .ok (some r) => some r.base64Data
    | .ok none => none
    | .error _ => none
  else some imagePath

/-! Upload pipeline (`FileSystemImageUpload`). -/

/-- The slots of a browser `File` the pipeline reads. -/
structure JsFile where
  name : String
  mime : String
  size : Nat
deriving DecidableEq

/-- Models `validateImageFile`: MIME must start with `image/`, size at most
5 MB; the component treats a nonempty error list as invalid. -/
def validateImageFile (f : JsFile) : List String :=
  (if !("image/".data.isPrefixOf f.mime.data) then ["File must be an image"] else []) ++
  (if f.size > 5 * 1024 * 1024 then ["File size must be less than 5MB"] else [])

/-- Success contract of `processAndStoreImage` (the float
`compressionRatio` is not modelled). -/
structure UploadResult where
  imageId : String
  data : String
  originalSize : Nat
  compressedSize : Nat
deriving DecidableEq

/-- The owner foreign key a record populates for its `type`. -/
def ownerField (r : ImageRecord) : Option String :=
  if r.rtype == "bodypart" then r.bodyPartId
  else if r.rtype == "symptom" then r.symptomId
  else if r.rtype == "contact" then r.contactId
  else if r.rtype == "food" then r.foodId
  else if r.rtype == "phrase" then r.phraseId
  else none

/-- The blob records owned by a given `type`/`ownerId` pair. -/
def recordsForOwner (ty identifier : String) (store : BlobStore) : BlobStore :=
  store.filter (fun r => r.rtype == ty && ownerField r == some identifier)

/-- Models `processAndStoreImage`: validate, compress when above 1 MB, encode,
identify, persist.  Canvas compression and base64 encoding are opaque
effectful parameters; a thrown stage aborts with nothing written. -/
def processAndStoreImage
    (compress : JsFile → Except JsError JsFile)
    (toBase64 : JsFile → Except JsError String)
    (now timestamp random : String)
    (file : JsFile) (imageType identifier : String)
    (store : BlobStore) : Except JsError (UploadResult × BlobStore) :=
  if !("image/".data.isPrefixOf file.mime.data) then
    .error (.validationError ["File must be an image"])
  else if file.size > 5 * 1024 * 1024 then
    .error (.validationError ["File size must be less than 5MB"])
  else do
    let processed ← if file.size > 1 * 1024 * 1024 then compress file else .ok file
    let b64 ← toBase64 processed
    let imageId := generateImageId imageType identifier timestamp random
    let imageRecord : ImageRecord :=
      { id := imageId
        rtype := imageType
        base64Data := b64
        originalName := file.name
        uploadDate := now
        size := processed.size
        bodyPartId := if imageType == "bodypart" then some identifier else none
        symptomId := if imageType == "symptom" then some identifier else none
        contactId := if imageType == "contact" then some identifier else none
        foodId := if imageType == "food" then some identifier else none
        phraseId := if imageType == "phrase" then some identifier else none }
    .ok (⟨imageId, b64, file.size, processed.size⟩, storeUserImage imageRecord store)

/-- The blob store after a pipeline run (unchanged when it threw). -/
def blobAfter (r : Except JsError (UploadResult × BlobStore)) (store : BlobStore) : BlobStore :=
  match r with
  | .ok (_, s) => s
  | .error _ => store


/-! Generic facts about the embedded Dexie table operations, shared by
several claims below. -/

theorem Table.get_eq_none {α : Type} [HasId α] (t : Table α) (i : Nat)
    (h : ∀ a ∈ t.rows, HasId.idOf a ≠ i) : t.get i = none := by
  unfold Table.get
  rw [List.find?_eq_none]
  intro a ha
  simpa using h a ha

theorem Table.not_mem_of_get_none {α : Type} [HasId α] {t : Table α} {i : Nat}
    (h : t.get i = none) : ∀ a ∈ t.rows, HasId.idOf a ≠ i := by
  unfold Table.get at h
  rw [List.find?_eq_none] at h
  intro a ha
  simpa using h a ha

theorem Table.updateById_of_none {α : Type} [HasId α] (t : Table α) (i : Nat) (g : α → α)
    (h : t.get i = none) : t.updateById i g = t := by
  have hm := Table.not_mem_of_get_none h
  unfold Table.updateById
  have : t.rows.map (fun a => if HasId.idOf a == i then g a else a) = t.rows := by
    conv_rhs => rw [← List.map_id t.rows]
    apply List.map_congr_left
    intro a ha
    simp [hm a ha]
  rw [this]

theorem Table.updateById_map_proj {α β : Type} [HasId α] (t : Table α) (i : Nat) (g : α → α)
    (f : α → β) (hf : ∀ a, f (g a) = f a) :
    (t.updateById i g).rows.map f = t.rows.map f := by
  unfold Table.updateById
  rw [List.map_map]
  apply List.map_congr_left
  intro a _
  by_cases h : HasId.idOf a = i <;> simp [h, hf]

theorem find?_map_update {α : Type} (l : List α) (pb : α → Bool) (g : α → α) (f : α)
    (hpg : ∀ a, pb (g a) = pb a) (h : l.find? pb = some f) :
    (l.map (fun a => if pb a then g a else a)).find? pb = some (g f) := by
  induction l with
  | nil => simp at h
  | cons a l ih =>
    by_cases hpa : pb a
    · rw [List.find?_cons_of_pos _ hpa] at h
      cases h
      simp only [List.map_cons, if_pos hpa]
      rw [List.find?_cons_of_pos]
      rw [hpg]
      exact hpa
    · rw [List.find?_cons_of_neg _ hpa] at h
      simp only [List.map_cons, if_neg hpa]
      rw [List.find?_cons_of_neg _ hpa]
      exact ih h

theorem Table.get_updateById {α : Type} [HasId α] {t : Table α} {i : Nat} {f : α} (g : α → α)
    (hid : ∀ a, HasId.idOf (g a) = HasId.idOf a)
    (h : t.get i = some f) : (t.updateById i g).get i = some (g f) := by
  unfold Table.get Table.updateById at *
  exact find?_map_update _ _ _ _ (fun a => by simp [hid]) h

theorem Table.get_updateById_map {α β : Type} [HasId α] {t : Table α} {i : Nat} {f : α}
    (g : α → α) (proj : α → β) (v : β)
    (hid : ∀ a, HasId.idOf (g a) = HasId.idOf a)
    (hv : ∀ a, proj (g a) = v)
    (h : t.get i = some f) :
    ((t.updateById i g).get i).map proj = some v := by
  rw [Table.get_updateById g hid h]
  simp [hv]

theorem jsOrNat_succ (v : Option Nat) :
    jsOrNat v 0 + 1 = match v with | none => 1 | some n => n + 1 := by
  cases v with
  | none => rfl
  | some n => cases n <;> simp [jsOrNat]


/-! Claim-specific concrete inputs. -/

/-- A food whose category lies outside `FOOD_CATEGORIES`. -/
def bogusFood : FoodData := { name := some "apple", category := some "bogus" }

/-- One valid order, used to exercise `updateOrderStatus`. -/
def orderSeedDB : DB :=
  dbAfter (addOrder "T" { orderNumber := some "001", status := some "pending",
                          orderDate := some "D" } DB.empty) DB.empty

/-- C1: the claim says add/update with an out-of-enum category fails with
a ValidationError and persists nothing.  The code defines validators that
flag exactly these inputs, but no add/update operation ever invokes them:
`addFood` persists a food with category outside `FOOD_CATEGORIES` and
returns it, and `updateOrderStatus` persists a status outside
`ORDER_STATUS`, even though `validateFoodData`/`validateOrderData` report
the invalid field for those same inputs. -/
theorem claim_C1_invalid_category_persisted :
    validateFoodData bogusFood = ["Invalid category"] ∧
    addFood "T" bogusFood DB.empty =
      .ok ({ id := 1, name := some "apple", category := some "bogus",
             isFavorite := none, usageCount := none, createdAt := "T" },
           { DB.empty with
             foods := ⟨[{ id := 1, name := some "apple", category := some "bogus",
                          isFavorite := none, usageCount := none, createdAt := "T" }], 2⟩ }) ∧
    (dbAfter (addFood "T" bogusFood DB.empty) DB.empty).foods.rows.map Food.category
      = [some "bogus"] ∧
    validateOrderData { orderNumber := some "001", status := some "bogus" } = ["Invalid status"] ∧
    (dbAfter (updateOrderStatus "T2" 1 "bogus" orderSeedDB) orderSeedDB).orders.rows.map Order.status
      = [some "bogus"] := by
  decide

/-- C3 counterexample: on an unknown id (the empty store, id 1) `get`
resolves with `undefined` and `updateOrderStatus` silently no-ops — no
error at all — while `updateFoodUsageCount` throws a TypeError, not a
NotFoundError. -/
theorem claim_C3_counterexample :
    getEmergencyById 1 DB.empty = .ok none ∧
    updateOrderStatus "T" 1 "pending" DB.empty = .ok (none, DB.empty) ∧
    updateFoodUsageCount 1 DB.empty =
      .error (.typeError "Cannot read properties of undefined (reading usageCount)") := by
  decide

/-- C3 (amended): for an id not present in the collection, `get` resolves
with `undefined` (no error); the usage-count updaters and `toggleFavorite`
throw a TypeError from dereferencing the missing record, not a
NotFoundError; `updateOrderStatus` is a silent no-op resolving with
`undefined` and leaving the store unchanged.  No operation produces a
NotFoundError. -/
theorem claim_C3_unknown_id_behaviour
    (db : DB) (i : Nat) (now status : String)
    (he : ∀ e ∈ db.emergencies.rows, e.id ≠ i)
    (hf : ∀ f ∈ db.foods.rows, f.id ≠ i)
    (hc : ∀ c ∈ db.contacts.rows, c.id ≠ i)
    (hp : ∀ p ∈ db.phrases.rows, p.id ≠ i)
    (ho : ∀ o ∈ db.orders.rows, o.id ≠ i) :
    getEmergencyById i db = .ok none ∧
    updateFoodUsageCount i db =
      .error (.typeError "Cannot read properties of undefined (reading usageCount)") ∧
    toggleFavorite i db =
      .error (.typeError "Cannot read properties of undefined (reading isFavorite)") ∧
    updateContactUsageCount now i db =
      .error (.typeError "Cannot read properties of undefined (reading usageCount)") ∧
    updatePhraseUsageCount now i db =
      .error (.typeError "Cannot read properties of undefined (reading usageCount)") ∧
    updateOrderStatus now i status db = .ok (none, db) := by
  have ge := Table.get_eq_none db.emergencies i he
  have gf := Table.get_eq_none db.foods i hf
  have gc := Table.get_eq_none db.contacts i hc
  have gp := Table.get_eq_none db.phrases i hp
  have go := Table.get_eq_none db.orders i ho
  refine ⟨?_, ?_, ?_, ?_, ?_, ?_⟩
  · simp [getEmergencyById, ge]
  · simp [updateFoodUsageCount, gf]
  · simp [toggleFavorite, gf]
  · simp [updateContactUsageCount, gc]
  · simp [updatePhraseUsageCount, gp]
  · have hno := Table.updateById_of_none db.orders i
      (fun o => { o with status := some status, updatedAt := now }) go
    simp [updateOrderStatus, hno, go]

/-- C3 witness: the amended behaviour at the empty store and id 1. -/
theorem claim_C3_unknown_id_behaviour_witness :
    getEmergencyById 1 DB.empty = .ok none ∧
    updateFoodUsageCount 1 DB.empty =
      .error (.typeError "Cannot read properties of undefined (reading usageCount)") ∧
    toggleFavorite 1 DB.empty =
      .error (.typeError "Cannot read properties of undefined (reading isFavorite)") ∧
    updateContactUsageCount "N" 1 DB.empty =
      .error (.typeError "Cannot read properties of undefined (reading usageCount)") ∧
    updatePhraseUsageCount "N" 1 DB.empty =
      .error (.typeError "Cannot read properties of undefined (reading usageCount)") ∧
    updateOrderStatus "N" 1 "pending" DB.empty = .ok (none, DB.empty) :=
  claim_C3_unknown_id_behaviour DB.empty 1 "N" "pending"
    (by decide) (by decide) (by decide) (by decide) (by decide)

/-- The §8 scenario contact — added without a `usageCount`. -/
def scenarioContact : ContactData :=
  { name := some "Mom", relationship := some "family", gender := some "female",
    phoneNumber := some "5551234" }

/-- C5 counterexample: a contact stored without a `usageCount` (the spec's
own §8 scenario input) has no entry in the `usageCount` index, so
`getAllContacts` omits it: the result is empty although the collection
holds one record. -/
theorem claim_C5_counterexample :
    getAllContacts (dbAfter (addContact "T0" scenarioContact DB.empty) DB.empty) = [] ∧
    (dbAfter (addContact "T0" scenarioContact DB.empty) DB.empty).contacts.rows.length = 1 := by
  decide

/-- C5 (amended): each `getAll` returns the records of its collection
that possess the type's sort key, sorted descending by that key —
`createdAt` for emergencies/foods/activities (always stamped, so these
return the whole collection), `usageCount` for contacts/phrases and
`orderDate` for orders (records lacking the key are omitted, having no
index entry). -/
theorem claim_C5_getAll_sorted (db : DB) :
    List.Sorted (keyDesc Emergency.createdAt) (getAllEmergencies db) ∧
    List.Perm (getAllEmergencies db) db.emergencies.rows ∧
    List.Sorted (keyDesc Food.createdAt) (getAllFoods db) ∧
    List.Perm (getAllFoods db) db.foods.rows ∧
    List.Sorted (keyDesc Activity.createdAt) (getAllActivities db) ∧
    List.Perm (getAllActivities db) db.activities.rows ∧
    List.Sorted (keyDesc (fun c => c.usageCount.getD 0)) (getAllContacts db) ∧
    List.Perm (getAllContacts db) (db.contacts.rows.filter (fun c => c.usageCount.isSome)) ∧
    List.Sorted (keyDesc (fun p => p.usageCount.getD 0)) (getAllPhrases db) ∧
    List.Perm (getAllPhrases db) (db.phrases.rows.filter (fun p => p.usageCount.isSome)) ∧
    List.Sorted (keyDesc (fun o => o.orderDate.getD "")) (getAllOrders db) ∧
    List.Perm (getAllOrders db) (db.orders.rows.filter (fun o => o.orderDate.isSome)) :=
  ⟨List.sorted_insertionSort _ _, List.perm_insertionSort _ _,
   List.sorted_insertionSort _ _, List.perm_insertionSort _ _,
   List.sorted_insertionSort _ _, List.perm_insertionSort _ _,
   List.sorted_insertionSort _ _, List.perm_insertionSort _ _,
   List.sorted_insertionSort _ _, List.perm_insertionSort _ _,
   List.sorted_insertionSort _ _, List.perm_insertionSort _ _⟩


/-! C2 machinery: bulk add into a cleared table. -/

theorem Table.bulkAdd_clear {α : Type} [HasId α] (t : Table α) (l : List α)
    (h : (l.map HasId.idOf).Nodup) :
    t.clear.bulkAdd l = .ok ⟨l, max t.nextId ((l.map HasId.idOf).foldr max 0 + 1)⟩ := by
  unfold Table.clear Table.bulkAdd
  simp [h]

/-- Primary keys are pairwise distinct in every table — the invariant of
any reachable store. -/
def idsNodup (db : DB) : Prop :=
  (db.emergencies.rows.map HasId.idOf).Nodup ∧
  (db.foods.rows.map HasId.idOf).Nodup ∧
  (db.contacts.rows.map HasId.idOf).Nodup ∧
  (db.phrases.rows.map HasId.idOf).Nodup ∧
  (db.orders.rows.map HasId.idOf).Nodup ∧
  (db.activities.rows.map HasId.idOf).Nodup

/-- C2: export, clear all, import reproduces every collection exactly,
ids included (the snapshot records carry their keys and `bulkAdd`
preserves them). -/
theorem claim_C2_export_clear_import_roundtrip (db : DB) (h : idsNodup db) :
    (importData (exportData db) (clearAllData db)).map
      (fun db' => (db'.emergencies.rows, db'.foods.rows, db'.contacts.rows,
                   db'.phrases.rows, db'.orders.rows, db'.activities.rows))
      = .ok (db.emergencies.rows, db.foods.rows, db.contacts.rows,
             db.phrases.rows, db.orders.rows, db.activities.rows) := by
  obtain ⟨h1, h2, h3, h4, h5, h6⟩ := h
  simp only [importData, exportData, clearAllData,
    Table.bulkAdd_clear _ _ h1, Table.bulkAdd_clear _ _ h2, Table.bulkAdd_clear _ _ h3,
    Table.bulkAdd_clear _ _ h4, Table.bulkAdd_clear _ _ h5, Table.bulkAdd_clear _ _ h6,
    Except.map]

/-- A small populated store for the C2 witness. -/
def sampleDB : DB :=
  { DB.empty with
    foods := ⟨[⟨1, some "soup", some "lunch", none, some 3, "T1"⟩,
               ⟨2, some "tea", some "drink", some true, none, "T2"⟩], 3⟩,
    contacts := ⟨[⟨1, some "Mom", some "family", some "female", some "5551234",
                   some 2, "T1", "T3"⟩], 2⟩ }

/-- C2 witness: the round trip at a concrete populated store. -/
theorem claim_C2_export_clear_import_roundtrip_witness :
    (importData (exportData sampleDB) (clearAllData sampleDB)).map
      (fun db' => (db'.emergencies.rows, db'.foods.rows, db'.contacts.rows,
                   db'.phrases.rows, db'.orders.rows, db'.activities.rows))
      = .ok (sampleDB.emergencies.rows, sampleDB.foods.rows, sampleDB.contacts.rows,
             sampleDB.phrases.rows, sampleDB.orders.rows, sampleDB.activities.rows) :=
  claim_C2_export_clear_import_roundtrip sampleDB
    ⟨by decide, by decide, by decide, by decide, by decide, by decide⟩


/-! C4 machinery: the seeding fold of `loadInitialEmergencyData`. -/

/-- The record `addEmergency` persists for a body-part seed item, given
the id the key generator assigns. -/
def seedRecord (now : String) (bp : BodyPartSeed) (i : Nat) : Emergency :=
  ⟨i, some bp.name, some bp.description, some bp.bodyPartImage, some bp.icon,
   bp.symptoms.map (fun s => ⟨s.stype, s.description, s.symptomImage, s.icon, 0, now⟩), now⟩

/-- Forget the auto-increment id of an emergency record. -/
def eraseEmergencyId (e : Emergency) : Emergency := { e with id := 0 }

theorem seedFold_emergencies (seed : List BodyPartSeed) (now : String) (db : DB) :
    (seed.foldl (fun acc bp => dbAfter (addEmergency now (seedEmergencyData now bp) acc) acc)
      db).emergencies.rows.map eraseEmergencyId
      = db.emergencies.rows.map eraseEmergencyId ++ seed.map (fun bp => seedRecord now bp 0) := by
  induction seed generalizing db with
  | nil => simp
  | cons bp rest ih =>
    rw [List.foldl_cons, ih]
    have hstep : (dbAfter (addEmergency now (seedEmergencyData now bp) db) db).emergencies.rows
        = db.emergencies.rows ++ [seedRecord now bp db.emergencies.nextId] := rfl
    rw [hstep]
    simp [eraseEmergencyId, seedRecord]

theorem seedFold_foods (seed : List BodyPartSeed) (now : String) (db : DB) :
    (seed.foldl (fun acc bp => dbAfter (addEmergency now (seedEmergencyData now bp) acc) acc)
      db).foods = db.foods := by
  induction seed generalizing db with
  | nil => rfl
  | cons bp rest ih => exact ih _

theorem seedFold_contacts (seed : List BodyPartSeed) (now : String) (db : DB) :
    (seed.foldl (fun acc bp => dbAfter (addEmergency now (seedEmergencyData now bp) acc) acc)
      db).contacts = db.contacts := by
  induction seed generalizing db with
  | nil => rfl
  | cons bp rest ih => exact ih _

theorem seedFold_phrases (seed : List BodyPartSeed) (now : String) (db : DB) :
    (seed.foldl (fun acc bp => dbAfter (addEmergency now (seedEmergencyData now bp) acc) acc)
      db).phrases = db.phrases := by
  induction seed generalizing db with
  | nil => rfl
  | cons bp rest ih => exact ih _

theorem seedFold_orders (seed : List BodyPartSeed) (now : String) (db : DB) :
    (seed.foldl (fun acc bp => dbAfter (addEmergency now (seedEmergencyData now bp) acc) acc)
      db).orders = db.orders := by
  induction seed generalizing db with
  | nil => rfl
  | cons bp rest ih => exact ih _

theorem seedFold_activities (seed : List BodyPartSeed) (now : String) (db : DB) :
    (seed.foldl (fun acc bp => dbAfter (addEmergency now (seedEmergencyData now bp) acc) acc)
      db).activities = db.activities := by
  induction seed generalizing db with
  | nil => rfl
  | cons bp rest ih => exact ih _

theorem reset_emergencies_erased (seed : List BodyPartSeed) (now : String) (db : DB) :
    (resetAndReloadData seed now db).emergencies.rows.map eraseEmergencyId
      = seed.map (fun bp => seedRecord now bp 0) := by
  unfold resetAndReloadData loadAllInitialData loadInitialEmergencyData
  have hempty : (clearAllData db).emergencies.rows = [] := rfl
  rw [hempty]
  simpa using seedFold_emergencies seed now (clearAllData db)

theorem reset_foods (seed : List BodyPartSeed) (now : String) (db : DB) :
    (resetAndReloadData seed now db).foods = ⟨[], db.foods.nextId⟩ := by
  unfold resetAndReloadData loadAllInitialData loadInitialEmergencyData
  have hempty : (clearAllData db).emergencies.rows = [] := rfl
  rw [hempty]
  simpa using seedFold_foods seed now (clearAllData db)

theorem reset_contacts (seed : List BodyPartSeed) (now : String) (db : DB) :
    (resetAndReloadData seed now db).contacts = ⟨[], db.contacts.nextId⟩ := by
  unfold resetAndReloadData loadAllInitialData loadInitialEmergencyData
  have hempty : (clearAllData db).emergencies.rows = [] := rfl
  rw [hempty]
  simpa using seedFold_contacts seed now (clearAllData db)

theorem reset_phrases (seed : List BodyPartSeed) (now : String) (db : DB) :
    (resetAndReloadData seed now db).phrases = ⟨[], db.phrases.nextId⟩ := by
  unfold resetAndReloadData loadAllInitialData loadInitialEmergencyData
  have hempty : (clearAllData db).emergencies.rows = [] := rfl
  rw [hempty]
  simpa using seedFold_phrases seed now (clearAllData db)

theorem reset_orders (seed : List BodyPartSeed) (now : String) (db : DB) :
    (resetAndReloadData seed now db).orders = ⟨[], db.orders.nextId⟩ := by
  unfold resetAndReloadData loadAllInitialData loadInitialEmergencyData
  have hempty : (clearAllData db).emergencies.rows = [] := rfl
  rw [hempty]
  simpa using seedFold_orders seed now (clearAllData db)

theorem reset_activities (seed : List BodyPartSeed) (now : String) (db : DB) :
    (resetAndReloadData seed now db).activities = ⟨[], db.activities.nextId⟩ := by
  unfold resetAndReloadData loadAllInitialData loadInitialEmergencyData
  have hempty : (clearAllData db).emergencies.rows = [] := rfl
  rw [hempty]
  simpa using seedFold_activities seed now (clearAllData db)

/-- A one-body-part seed document. -/
def demoSeed : List BodyPartSeed :=
  [{ name := "Head", description := "Head pain", bodyPartImage := "head.png", icon := "icon1",
     symptoms := [{ stype := "Headache", description := "Throbbing",
                    symptomImage := "ha.png", icon := "icon2" }] }]

/-- C4 counterexample: starting empty, the first reset seeds the record
with id 1; the second reset seeds it with id 2, because `clear()` does
not reset the IndexedDB auto-increment key generator — so the two final
states are not identical. -/
theorem claim_C4_counterexample :
    (resetAndReloadData demoSeed "T" DB.empty).emergencies.rows.map Emergency.id = [1] ∧
    (resetAndReloadData demoSeed "T"
       (resetAndReloadData demoSeed "T" DB.empty)).emergencies.rows.map Emergency.id = [2] ∧
    resetAndReloadData demoSeed "T" (resetAndReloadData demoSeed "T" DB.empty)
      ≠ resetAndReloadData demoSeed "T" DB.empty := by
  decide

/-- C4 (amended): two consecutive `resetAll` calls with no intervening
writes (and, here, a fixed clock) agree on everything except the
auto-increment ids of the reseeded emergency records: all other
collections coincide, and the emergency rows coincide once their ids are
erased.  The ids themselves differ because `clear()` leaves the key
generator untouched. -/
theorem claim_C4_reset_idempotent_up_to_ids (seed : List BodyPartSeed) (now : String) (db : DB) :
    (resetAndReloadData seed now (resetAndReloadData seed now db)).emergencies.rows.map
        eraseEmergencyId
      = (resetAndReloadData seed now db).emergencies.rows.map eraseEmergencyId ∧
    (resetAndReloadData seed now (resetAndReloadData seed now db)).foods
      = (resetAndReloadData seed now db).foods ∧
    (resetAndReloadData seed now (resetAndReloadData seed now db)).contacts
      = (resetAndReloadData seed now db).contacts ∧
    (resetAndReloadData seed now (resetAndReloadData seed now db)).phrases
      = (resetAndReloadData seed now db).phrases ∧
    (resetAndReloadData seed now (resetAndReloadData seed now db)).orders
      = (resetAndReloadData seed now db).orders ∧
    (resetAndReloadData seed now (resetAndReloadData seed now db)).activities
      = (resetAndReloadData seed now db).activities := by
  refine ⟨?_, ?_, ?_, ?_, ?_, ?_⟩
  · rw [reset_emergencies_erased, reset_emergencies_erased]
  · rw [reset_foods, reset_foods]
  · rw [reset_contacts, reset_contacts]
  · rw [reset_phrases, reset_phrases]
  · rw [reset_orders, reset_orders]
  · rw [reset_activities, reset_activities]


/-! C8: timestamp discipline of the mutating operations. -/

/-- The store after adding one emergency at time T0, for the C8
counterexample. -/
def c8db : DB := dbAfter (addEmergency "T0" { name := some "Head" } DB.empty) DB.empty

/-- C8 counterexample: `updateEmergency` applies the caller's patch
verbatim, so a patch that itself carries `createdAt` overwrites the
stamped creation time — createdAt is not immutable under every
operation. -/
theorem claim_C8_counterexample :
    c8db.emergencies.rows.map Emergency.createdAt = ["T0"] ∧
    (dbAfter (updateEmergency 1 { createdAt := some "T1" } c8db) c8db).emergencies.rows.map
        Emergency.createdAt = ["T1"] := by
  decide

/-- C8 (amended): every dedicated mutation — the usage-count updaters,
the favourite/active toggles and `updateOrderStatus` — preserves every
record's `createdAt`, and the mutations of the types carrying `updatedAt`
(contacts, phrases, orders) stamp the mutated record's `updatedAt` with
the operation time; `updateEmergency` preserves `createdAt` provided the
caller's patch does not itself contain `createdAt` (a patch carrying one
overwrites it). -/
theorem claim_C8_createdAt_updatedAt
    (db : DB) (i : Nat) (now status : String) (p : EmergencyPatch)
    (hp : p.createdAt = none) :
    (dbAfter (updateFoodUsageCount i db) db).foods.rows.map Food.createdAt
      = db.foods.rows.map Food.createdAt ∧
    (dbAfter (toggleFavorite i db) db).foods.rows.map Food.createdAt
      = db.foods.rows.map Food.createdAt ∧
    (dbAfter (updateContactUsageCount now i db) db).contacts.rows.map Contact.createdAt
      = db.contacts.rows.map Contact.createdAt ∧
    ((dbAfter (updateContactUsageCount now i db) db).contacts.get i).map Contact.updatedAt
      = (db.contacts.get i).map (fun _ => now) ∧
    (dbAfter (updatePhraseUsageCount now i db) db).phrases.rows.map Phrase.createdAt
      = db.phrases.rows.map Phrase.createdAt ∧
    ((dbAfter (updatePhraseUsageCount now i db) db).phrases.get i).map Phrase.updatedAt
      = (db.phrases.get i).map (fun _ => now) ∧
    (dbAfter (updateOrderStatus now i status db) db).orders.rows.map Order.createdAt
      = db.orders.rows.map Order.createdAt ∧
    ((dbAfter (updateOrderStatus now i status db) db).orders.get i).map Order.updatedAt
      = (db.orders.get i).map (fun _ => now) ∧
    (dbAfter (updateActivityUsageCount i db) db).activities.rows.map Activity.createdAt
      = db.activities.rows.map Activity.createdAt ∧
    (dbAfter (toggleActivityActive i db) db).activities.rows.map Activity.createdAt
      = db.activities.rows.map Activity.createdAt ∧
    (dbAfter (updateEmergency i p db) db).emergencies.rows.map Emergency.createdAt
      = db.emergencies.rows.map Emergency.createdAt := by
  refine ⟨?_, ?_, ?_, ?_, ?_, ?_, ?_, ?_, ?_, ?_, ?_⟩
  · cases hg : db.foods.get i with
    | none => simp [updateFoodUsageCount, hg, dbAfter]
    | some f =>
      simp only [updateFoodUsageCount, hg, dbAfter]
      exact Table.updateById_map_proj _ _ _ _ (fun a => rfl)
  · cases hg : db.foods.get i with
    | none => simp [toggleFavorite, hg, dbAfter]
    | some f =>
      simp only [toggleFavorite, hg, dbAfter]
      exact Table.updateById_map_proj _ _ _ _ (fun a => rfl)
  · cases hg : db.contacts.get i with
    | none => simp [updateContactUsageCount, hg, dbAfter]
    | some c =>
      simp only [updateContactUsageCount, hg, dbAfter]
      exact Table.updateById_map_proj _ _ _ _ (fun a => rfl)
  · cases hg : db.contacts.get i with
    | none => simp [updateContactUsageCount, hg, dbAfter]
    | some c =>
      simp only [updateContactUsageCount, hg, dbAfter]
      refine Table.get_updateById_map _ _ _ ?_ ?_ hg
      · intro a
        rfl
      · intro a
        rfl
  · cases hg : db.phrases.get i with
    | none => simp [updatePhraseUsageCount, hg, dbAfter]
    | some x =>
      simp only [updatePhraseUsageCount, hg, dbAfter]
      exact Table.updateById_map_proj _ _ _ _ (fun a => rfl)
  · cases hg : db.phrases.get i with
    | none => simp [updatePhraseUsageCount, hg, dbAfter]
    | some x =>
      simp only [updatePhraseUsageCount, hg, dbAfter]
      refine Table.get_updateById_map _ _ _ ?_ ?_ hg
      · intro a
        rfl
      · intro a
        rfl
  · simp only [updateOrderStatus, dbAfter]
    exact Table.updateById_map_proj _ _ _ _ (fun a => rfl)
  · cases hg : db.orders.get i with
    | none =>
      simp only [updateOrderStatus, dbAfter]
      rw [Table.updateById_of_none _ _ _ hg, hg]
      rfl
    | some o =>
      simp only [updateOrderStatus, dbAfter]
      refine Table.get_updateById_map _ _ _ ?_ ?_ hg
      · intro a
        rfl
      · intro a
        rfl
  · cases hg : db.activities.get i with
    | none => simp [updateActivityUsageCount, hg, dbAfter]
    | some a =>
      simp only [updateActivityUsageCount, hg, dbAfter]
      exact Table.updateById_map_proj _ _ _ _ (fun a => rfl)
  · cases hg : db.activities.get i with
    | none => simp [toggleActivityActive, hg, dbAfter]
    | some a =>
      simp only [toggleActivityActive, hg, dbAfter]
      exact Table.updateById_map_proj _ _ _ _ (fun a => rfl)
  · simp only [updateEmergency, dbAfter]
    exact Table.updateById_map_proj _ _ _ _ (fun e => by simp [hp])

/-- C8 witness: the amended statement at a concrete store holding one of
each mutable record. -/
def c8witnessDB : DB :=
  { DB.empty with
    foods := ⟨[⟨1, some "soup", some "lunch", some false, some 2, "F0"⟩], 2⟩,
    contacts := ⟨[⟨1, some "Mom", some "family", some "female", some "5551234",
                   some 2, "C0", "C0"⟩], 2⟩,
    phrases := ⟨[⟨1, some "hello", some "greeting", some 1, "P0", "P0"⟩], 2⟩,
    orders := ⟨[⟨1, some "001", some "pending", some 5, some false, some "D0", "O0", "O0"⟩], 2⟩,
    activities := ⟨[⟨1, some "walk", some "exercise", some false, none, some true,
                     some 1, "A0"⟩], 2⟩,
    emergencies := ⟨[⟨1, some "Head", some "desc", none, none, [], "E0"⟩], 2⟩ }

theorem claim_C8_createdAt_updatedAt_witness :
    (dbAfter (updateFoodUsageCount 1 c8witnessDB) c8witnessDB).foods.rows.map Food.createdAt
      = c8witnessDB.foods.rows.map Food.createdAt ∧
    (dbAfter (toggleFavorite 1 c8witnessDB) c8witnessDB).foods.rows.map Food.createdAt
      = c8witnessDB.foods.rows.map Food.createdAt ∧
    (dbAfter (updateContactUsageCount "N" 1 c8witnessDB) c8witnessDB).contacts.rows.map
        Contact.createdAt
      = c8witnessDB.contacts.rows.map Contact.createdAt ∧
    ((dbAfter (updateContactUsageCount "N" 1 c8witnessDB) c8witnessDB).contacts.get 1).map
        Contact.updatedAt
      = (c8witnessDB.contacts.get 1).map (fun _ => "N") ∧
    (dbAfter (updatePhraseUsageCount "N" 1 c8witnessDB) c8witnessDB).phrases.rows.map
        Phrase.createdAt
      = c8witnessDB.phrases.rows.map Phrase.createdAt ∧
    ((dbAfter (updatePhraseUsageCount "N" 1 c8witnessDB) c8witnessDB).phrases.get 1).map
        Phrase.updatedAt
      = (c8witnessDB.phrases.get 1).map (fun _ => "N") ∧
    (dbAfter (updateOrderStatus "N" 1 "ready" c8witnessDB) c8witnessDB).orders.rows.map
        Order.createdAt
      = c8witnessDB.orders.rows.map Order.createdAt ∧
    ((dbAfter (updateOrderStatus "N" 1 "ready" c8witnessDB) c8witnessDB).orders.get 1).map
        Order.updatedAt
      = (c8witnessDB.orders.get 1).map (fun _ => "N") ∧
    (dbAfter (updateActivityUsageCount 1 c8witnessDB) c8witnessDB).activities.rows.map
        Activity.createdAt
      = c8witnessDB.activities.rows.map Activity.createdAt ∧
    (dbAfter (toggleActivityActive 1 c8witnessDB) c8witnessDB).activities.rows.map
        Activity.createdAt
      = c8witnessDB.activities.rows.map Activity.createdAt ∧
    (dbAfter (updateEmergency 1 { name := some "Arm" } c8witnessDB) c8witnessDB).emergencies.rows.map
        Emergency.createdAt
      = c8witnessDB.emergencies.rows.map Emergency.createdAt :=
  claim_C8_createdAt_updatedAt c8witnessDB 1 "N" "ready" { name := some "Arm" } rfl

/-! C10: increment semantics on a present record. -/

/-- C10: one `incrementUsage` call on an existing record takes an absent
`usageCount` to exactly 1 and a numeric one to its value plus 1 (for
foods, contacts and phrases alike). -/
theorem claim_C10_increment_semantics
    (db : DB) (i : Nat) (now : String) (f : Food) (c : Contact) (q : Phrase)
    (hfg : db.foods.get i = some f)
    (hcg : db.contacts.get i = some c)
    (hqg : db.phrases.get i = some q) :
    ((dbAfter (updateFoodUsageCount i db) db).foods.get i).map Food.usageCount
      = some (some (match f.usageCount with | none => 1 | some n => n + 1)) ∧
    ((dbAfter (updateContactUsageCount now i db) db).contacts.get i).map Contact.usageCount
      = some (some (match c.usageCount with | none => 1 | some n => n + 1)) ∧
    ((dbAfter (updatePhraseUsageCount now i db) db).phrases.get i).map Phrase.usageCount
      = some (some (match q.usageCount with | none => 1 | some n => n + 1)) := by
  refine ⟨?_, ?_, ?_⟩
  · simp only [updateFoodUsageCount, hfg, dbAfter]
    refine Table.get_updateById_map _ _ _ ?_ ?_ hfg
    · intro a
      rfl
    · intro a
      rw [jsOrNat_succ]
  · simp only [updateContactUsageCount, hcg, dbAfter]
    refine Table.get_updateById_map _ _ _ ?_ ?_ hcg
    · intro a
      rfl
    · intro a
      rw [jsOrNat_succ]
  · simp only [updatePhraseUsageCount, hqg, dbAfter]
    refine Table.get_updateById_map _ _ _ ?_ ?_ hqg
    · intro a
      rfl
    · intro a
      rw [jsOrNat_succ]

/-- Store for the C10 witness: a food with no usageCount, a contact with
usageCount 4 and a phrase with usageCount 0. -/
def c10db : DB :=
  { DB.empty with
    foods := ⟨[⟨1, some "soup", some "lunch", none, none, "T"⟩], 2⟩,
    contacts := ⟨[⟨1, some "Mom", some "family", some "female", some "5551234",
                   some 4, "T", "T"⟩], 2⟩,
    phrases := ⟨[⟨1, some "hi", some "greeting", some 0, "T", "T"⟩], 2⟩ }

theorem claim_C10_increment_semantics_witness :
    ((dbAfter (updateFoodUsageCount 1 c10db) c10db).foods.get 1).map Food.usageCount
      = some (some 1) ∧
    ((dbAfter (updateContactUsageCount "N" 1 c10db) c10db).contacts.get 1).map Contact.usageCount
      = some (some 5) ∧
    ((dbAfter (updatePhraseUsageCount "N" 1 c10db) c10db).phrases.get 1).map Phrase.usageCount
      = some (some 1) :=
  claim_C10_increment_semantics c10db 1 "N"
    ⟨1, some "soup", some "lunch", none, none, "T"⟩
    ⟨1, some "Mom", some "family", some "female", some "5551234", some 4, "T", "T"⟩
    ⟨1, some "hi", some "greeting", some 0, "T", "T"⟩
    (by decide) (by decide) (by decide)


/-! C6: shape and distinctness of generated image ids. -/

theorem append_underscore_inj (a₁ b₁ : List Char) :
    ∀ (a₂ b₂ : List Char), '_' ∉ a₁ → '_' ∉ a₂ →
      a₁ ++ '_' :: b₁ = a₂ ++ '_' :: b₂ → a₁ = a₂ ∧ b₁ = b₂ := by
  induction a₁ with
  | nil =>
    intro a₂ b₂ h1 h2 h
    cases a₂ with
    | nil => simpa using h
    | cons c cs =>
      simp only [List.nil_append, List.cons_append, List.cons.injEq] at h
      exact absurd (h.1 ▸ List.mem_cons_self c cs) h2
  | cons c cs ih =>
    intro a₂ b₂ h1 h2 h
    cases a₂ with
    | nil =>
      simp only [List.nil_append, List.cons_append, List.cons.injEq] at h
      exact absurd (h.1.symm ▸ List.mem_cons_self '_' cs) h1
    | cons d ds =>
      simp only [List.cons_append, List.cons.injEq] at h
      obtain ⟨rfl, h'⟩ := h
      have hr := ih ds b₂ (fun hm => h1 (List.mem_cons_of_mem _ hm))
        (fun hm => h2 (List.mem_cons_of_mem _ hm)) h'
      exact ⟨by rw [hr.1], hr.2⟩

/-- C6 counterexample: the generated id is not of the exact claimed form
`type_ownerId_timestamp_random`: it carries the `user_upload_` marker in
front, so for type `food` it does not begin with the type component. -/
theorem claim_C6_counterexample :
    generateImageId "food" "7" "100" "abc" = "user_upload_food_7_100_abc" ∧
    generateImageId "food" "7" "100" "abc" ≠ "food_7_100_abc" := by
  decide

/-- C6 (amended): the Identify stage generates
`user_upload_<type>_<ownerId>_<timestampMillis>_<randomSuffix>`, and two
uploads for the same owner receive the same id only when both their
timestamp and their random suffix coincide — uploads differing in either
component (the components are underscore-free, as produced by `Date.now()`
and `Math.random().toString(36)`) always receive distinct ids. -/
theorem claim_C6_id_shape_and_distinctness (ty ident t1 t2 r1 r2 : String)
    (ht1 : '_' ∉ t1.data) (ht2 : '_' ∉ t2.data)
    (hr1 : '_' ∉ r1.data) (hr2 : '_' ∉ r2.data)
    (h : generateImageId ty ident t1 r1 = generateImageId ty ident t2 r2) :
    generateImageId ty ident t1 r1
      = "user_upload_" ++ ty ++ "_" ++ ident ++ "_" ++ t1 ++ "_" ++ r1 ∧
    t1 = t2 ∧ r1 = r2 := by
  refine ⟨rfl, ?_⟩
  unfold generateImageId at h
  have hd := congrArg String.data h
  simp only [String.data_append, List.append_assoc] at hd
  have h1 := List.append_cancel_left hd
  have h2 := List.append_cancel_left h1
  have h3 := List.append_cancel_left h2
  have h4 := List.append_cancel_left h3
  have h5 := List.append_cancel_left h4
  simp only [List.singleton_append] at h5
  obtain ⟨ha, hb⟩ := append_underscore_inj t1.data r1.data t2.data r2.data ht1 ht2 h5
  exact ⟨String.ext ha, String.ext hb⟩

/-- C6 witness: the shape equation and component recovery at concrete
equal components. -/
theorem claim_C6_id_shape_and_distinctness_witness :
    generateImageId "food" "7" "100" "a"
      = "user_upload_" ++ "food" ++ "_" ++ "7" ++ "_" ++ "100" ++ "_" ++ "a" ∧
    ("100" : String) = "100" ∧ ("a" : String) = "a" :=
  claim_C6_id_shape_and_distinctness "food" "7" "100" "100" "a" "a"
    (by decide) (by decide) (by decide) (by decide) rfl

/-! C7: oversized uploads are rejected before any write. -/

/-- C7: a file larger than 5 MB fails the pipeline with a
ValidationError — whatever the compression and encoding stages would do —
the blob store is exactly as before, `validateImageFile` flags the file,
and in particular an owner with no blob records still has none
afterwards. -/
theorem claim_C7_oversized_upload_rejected
    (compress : JsFile → Except JsError JsFile)
    (toBase64 : JsFile → Except JsError String)
    (now ts rnd : String) (file : JsFile) (ty ident : String) (store : BlobStore)
    (hsize : file.size > 5 * 1024 * 1024) :
    (∃ msgs, processAndStoreImage compress toBase64 now ts rnd file ty ident store
        = .error (.validationError msgs)) ∧
    blobAfter (processAndStoreImage compress toBase64 now ts rnd file ty ident store) store
      = store ∧
    validateImageFile file ≠ [] ∧
    (recordsForOwner ty ident store = [] →
      recordsForOwner ty ident
        (blobAfter (processAndStoreImage compress toBase64 now ts rnd file ty ident store) store)
        = []) := by
  have key : ∃ msgs, processAndStoreImage compress toBase64 now ts rnd file ty ident store
      = .error (.validationError msgs) := by
    cases hb : ("image/".data.isPrefixOf file.mime.data) with
    | false =>
      refine ⟨["File must be an image"], ?_⟩
      simp [processAndStoreImage, hb]
    | true =>
      refine ⟨["File size must be less than 5MB"], ?_⟩
      simp [processAndStoreImage, hb, hsize]
  obtain ⟨msgs, hkey⟩ := key
  refine ⟨⟨msgs, hkey⟩, ?_, ?_, ?_⟩
  · rw [hkey]
    rfl
  · have : validateImageFile file
        = (if !("image/".data.isPrefixOf file.mime.data) then ["File must be an image"] else [])
          ++ ["File size must be less than 5MB"] := by
      simp [validateImageFile, hsize]
    rw [this]
    cases ("image/".data.isPrefixOf file.mime.data) <;> simp
  · intro h0
    rw [hkey]
    exact h0

/-- C7 witness: a 6 MB JPEG at an empty store, with trivial compression
and encoding stages. -/
theorem claim_C7_oversized_upload_rejected_witness :
    (∃ msgs, processAndStoreImage Except.ok (fun _ => Except.ok "data") "T" "100" "r"
        ⟨"big.jpg", "image/jpeg", 6 * 1024 * 1024⟩ "contact" "1" []
        = .error (.validationError msgs)) ∧
    blobAfter (processAndStoreImage Except.ok (fun _ => Except.ok "data") "T" "100" "r"
        ⟨"big.jpg", "image/jpeg", 6 * 1024 * 1024⟩ "contact" "1" []) []
      = [] ∧
    validateImageFile ⟨"big.jpg", "image/jpeg", 6 * 1024 * 1024⟩ ≠ [] ∧
    (recordsForOwner "contact" "1" [] = [] →
      recordsForOwner "contact" "1"
        (blobAfter (processAndStoreImage Except.ok (fun _ => Except.ok "data") "T" "100" "r"
          ⟨"big.jpg", "image/jpeg", 6 * 1024 * 1024⟩ "contact" "1" []) [])
        = []) :=
  claim_C7_oversized_upload_rejected Except.ok (fun _ => Except.ok "data") "T" "100" "r"
    ⟨"big.jpg", "image/jpeg", 6 * 1024 * 1024⟩ "contact" "1" [] (by decide)

/-! C9: resolution of image references. -/

/-- C9: `getImageSource` returns a non-upload reference unchanged; on an
upload-pattern reference it returns the stored record's payload when one
exists and the absence sentinel (`null`, here `none`) when none does; a
storage failure is caught and also yields the sentinel — the function is
total, so it never throws. -/
theorem claim_C9_resolve_total (fail : Option JsError) (store : BlobStore) (path : String) :
    (("user_upload_".data.isPrefixOf path.data) = false →
      getImageSource fail store path = some path) ∧
    (("user_upload_".data.isPrefixOf path.data) = true → fail = none →
      getImageSource fail store path
        = (store.find? (fun r => r.id == path)).map (fun r => r.base64Data)) ∧
    (∀ e, fail = some e → ("user_upload_".data.isPrefixOf path.data) = true →
      getImageSource fail store path = none) := by
  have hne : ("user_upload_".data.isPrefixOf path.data) = true → (path != "") = true := by
    intro hp
    by_cases hc : path = ""
    · subst hc
      exact absurd hp (by decide)
    · simp [bne_iff_ne, hc]
  refine ⟨?_, ?_, ?_⟩
  · intro hp
    simp [getImageSource, isUserUploadedImage, hp]
  · intro hp hf
    subst hf
    simp only [getImageSource, isUserUploadedImage, hp, hne hp, Bool.and_self,
      getUserImage, if_true]
    cases hfind : store.find? (fun r => r.id == path) <;> simp
  · intro e hf hp
    subst hf
    simp [getImageSource, isUserUploadedImage, hp, hne hp, getUserImage]

/-- C9 witness: a static asset path comes back unchanged; a dangling
upload id and a failing store both yield the sentinel. -/
theorem claim_C9_resolve_total_witness :
    getImageSource none [] "logo.png" = some "logo.png" ∧
    getImageSource none [] "user_upload_contact_1_5_x" = none ∧
    getImageSource (some (.typeError "boom")) [] "user_upload_contact_1_5_x" = none :=
  ⟨(claim_C9_resolve_total none [] "logo.png").1 (by decide),
   (claim_C9_resolve_total none [] "user_upload_contact_1_5_x").2.1 (by decide) rfl,
   (claim_C9_resolve_total (some (.typeError "boom")) [] "user_upload_contact_1_5_x").2.2
     (.typeError "boom") rfl (by decide)⟩

end StrokeApp
